import Mathlib

/-!
Shallow embedding of the zerotrust-ai access-evaluation platform
(`src/zerotrust_ai`), together with theorems checking the natural-language
specification against the code.

Conventions of the embedding:
* Python floats are modelled as exact rationals (`ℚ`); where the code applies
  transcendental functions (`math.exp`, `math.sqrt`) the values live in `ℝ`.
* Python `round(x, 4)` is modelled by `round4` (round half away from zero at
  the fourth decimal).  Python uses banker's rounding, which differs only on
  exact ties at the fifth decimal; no input considered below hits a tie.
* Wall-clock fields (`timestamp`, `last_verified`, `updated_at`) and purely
  diagnostic payloads (`reasons`, `details`, `factors`) are omitted: no
  statement below depends on them.
* Fallible Python code (statements that can raise `TypeError`/`IndexError`)
  is modelled in the `Except PyErr` monad.
-/

namespace ZT

/-- `round(x, 4)` on exact rationals. -/
def round4 (x : ℚ) : ℚ := (round (x * 10000) : ℤ) / 10000

/-- `round(x, 4)` on reals (used where the code rounds results of `exp`). -/
noncomputable def round4R (x : ℝ) : ℝ := ((round (x * 10000) : ℤ) : ℝ) / 10000

/-- Python string `<` (lexicographic on code points), on `List Char`. -/
def charListLt : List Char → List Char → Bool
  | [], [] => false
  | [], _ :: _ => true
  | _ :: _, [] => false
  | a :: as, b :: bs => if a < b then true else if b < a then false else charListLt as bs

/-- Python string `<` (lexicographic on code points). -/
def strLt (a b : String) : Bool := charListLt a.data b.data

/-! ## `access/context.py` -/

/-- `DeviceHealth` (`access/context.py`). -/
structure DeviceHealth where
  os_patched : Bool := true
  antivirus_active : Bool := true
  disk_encrypted : Bool := true
  firewall_enabled : Bool := true
  compliance_score : ℚ := 1
deriving DecidableEq

/-- `DeviceHealth.health_score`: `round(binary_score * 0.6 + compliance * 0.4, 4)`
where `binary_score` is the fraction of the four boolean checks that pass. -/
def DeviceHealth.health_score (d : DeviceHealth) : ℚ :=
  let checks : List Bool := [d.os_patched, d.antivirus_active, d.disk_encrypted, d.firewall_enabled]
  let binary_score : ℚ := (checks.countP id : ℚ) / 4
  round4 (binary_score * (6/10) + d.compliance_score * (4/10))

/-- `AccessContext` (`access/context.py`); wall-clock and metadata omitted. -/
structure AccessContext where
  entity_id : String
  resource : String
  action : String := "read"
  source_ip : String := ""
  location : String := ""
  device : DeviceHealth := {}
  behavior_score : ℚ := 0
  risk_score : ℚ := 0
  session_id : String := ""
  authentication_method : String := "password"
  mfa_verified : Bool := false
  network_zone : String := "external"
deriving DecidableEq

/-- `AccessContext.auth_strength`: fixed method table, `+0.2` capped at `1.0` with MFA. -/
def AccessContext.auth_strength (c : AccessContext) : ℚ :=
  let base : ℚ :=
    if c.authentication_method = "certificate" then 9/10
    else if c.authentication_method = "hardware_token" then 85/100
    else if c.authentication_method = "biometric" then 8/10
    else if c.authentication_method = "totp" then 7/10
    else if c.authentication_method = "password" then 4/10
    else if c.authentication_method = "api_key" then 5/10
    else if c.authentication_method = "session_cookie" then 3/10
    else 3/10
  if c.mfa_verified then min 1 (base + 2/10) else base

/-- `AccessContext.network_trust`: fixed zone table. -/
def AccessContext.network_trust (c : AccessContext) : ℚ :=
  if c.network_zone = "internal" then 7/10
  else if c.network_zone = "vpn" then 6/10
  else if c.network_zone = "dmz" then 4/10
  else if c.network_zone = "external" then 2/10
  else 1/10

/-! ## `access/engine.py` -/

/-- `Decision` enum (`access/engine.py`). -/
inductive Decision where
  | allow
  | deny
  | challenge
  | restrict
deriving DecidableEq

/-- The `str` value carried by each `Decision` member. -/
def Decision.value : Decision → String
  | .allow => "allow"
  | .deny => "deny"
  | .challenge => "challenge"
  | .restrict => "restrict"

/-- The explicit strictness order mandated by the spec:
ALLOW < RESTRICT < CHALLENGE < DENY. -/
def strictRank : Decision → ℕ
  | .allow => 0
  | .restrict => 1
  | .challenge => 2
  | .deny => 3

/-- `AccessDecision` (`access/engine.py`); `reasons`, `required_actions`,
`context_summary` and `timestamp` omitted (diagnostic only). -/
structure AccessDecision where
  decision : Decision
  confidence : ℚ
  risk_level : ℚ
deriving DecidableEq

/-- `AccessDecisionEngine` configuration: thresholds and the per-resource
sensitivity map (`resource_sensitivity.get(resource, 0.5)` modelled with
`Option`). The decision log is omitted (append-only, never read by the
operations considered here). -/
structure AccessDecisionEngine where
  deny_threshold : ℚ := 3/10
  challenge_threshold : ℚ := 5/10
  restrict_threshold : ℚ := 7/10
  resource_sensitivity : String → Option ℚ := fun _ => none

/-- `AccessDecisionEngine._calculate_trust_score`. -/
def AccessDecisionEngine.calculate_trust_score (ctx : AccessContext) : ℚ :=
  let scores_auth := ctx.auth_strength
  let scores_device := ctx.device.health_score
  let scores_behavior := max 0 (1 - ctx.behavior_score)
  let scores_network := ctx.network_trust
  let scores_risk := max 0 (1 - ctx.risk_score)
  let trust := scores_auth * (20/100) + scores_device * (20/100)
    + scores_behavior * (25/100) + scores_network * (15/100) + scores_risk * (20/100)
  round4 (max 0 (min 1 trust))

/-- `AccessDecisionEngine.evaluate` (decision, confidence and risk level;
the log append is a no-op in this embedding). -/
def AccessDecisionEngine.evaluate (e : AccessDecisionEngine) (ctx : AccessContext) :
    AccessDecision :=
  let trust_score := AccessDecisionEngine.calculate_trust_score ctx
  let sensitivity := (e.resource_sensitivity ctx.resource).getD (5/10)
  let effective_deny := e.deny_threshold * (1 + sensitivity * (5/10))
  let effective_challenge := e.challenge_threshold * (1 + sensitivity * (3/10))
  let effective_restrict := e.restrict_threshold * (1 + sensitivity * (2/10))
  let decision :=
    if trust_score < effective_deny then Decision.deny
    else if trust_score < effective_challenge then Decision.challenge
    else if trust_score < effective_restrict then Decision.restrict
    else Decision.allow
  { decision := decision
    confidence := min 1 (|trust_score - 5/10| * 2)
    risk_level := round4 (1 - trust_score) }

/-! ## `access/verification.py` -/

/-- `VerificationState` (`access/verification.py`); `last_verified` omitted. -/
structure VerificationState where
  entity_id : String
  session_id : String
  initial_decision : Decision := .allow
  current_decision : Decision := .allow
  verification_count : ℕ := 0
  escalation_count : ℕ := 0
  trust_history : List ℚ := []
deriving DecidableEq

/-- `ContinuousVerifier._trust_trend`. `history[-3:]` is
`drop (length - 3)`; `recent[-1] - recent[0]` is last minus head. -/
def trust_trend (history : List ℚ) : String :=
  if history.length < 2 then "stable"
  else
    let recent := history.drop (history.length - 3)
    if 2 ≤ recent.length then
      let delta := (recent.getLast?.getD 0) - (recent.head?.getD 0)
      if delta < -(1/10) then "degrading"
      else if delta > 1/10 then "improving"
      else "stable"
    else "stable"

/-- The trend rule as the spec words it (mean of the last three history
points compared to the earliest of those points).  Stated only to be
compared against `trust_trend`, which is translated from the code. -/
def spec_trust_trend (history : List ℚ) : String :=
  if history.length < 2 then "stable"
  else
    let recent := history.drop (history.length - 3)
    let mean := recent.sum / (recent.length : ℚ)
    let delta := mean - (recent.head?.getD 0)
    if delta < -(1/10) then "degrading"
    else if delta > 1/10 then "improving"
    else "stable"

/-- The fields of the dict returned by `ContinuousVerifier.reverify`. -/
structure ReverifyOut where
  session_id : String
  previous_decision : String
  current_decision : String
  risk_level : ℚ
  trust_trend : String
  escalated : Bool
  verification_count : ℕ
deriving DecidableEq

/-- `ContinuousVerifier.reverify`, lines 81-105, for an existing state:
the state update and returned dict, given the verifier's engine.  The
escalation test is the code's comparison
`decision.decision.value < state.current_decision.value` — a Python string
comparison on the enum values. -/
def reverify (engine : AccessDecisionEngine) (st : VerificationState)
    (ctx : AccessContext) : VerificationState × ReverifyOut :=
  let st1 := { st with verification_count := st.verification_count + 1 }
  let decision := engine.evaluate ctx
  let new_trust := 1 - decision.risk_level
  let st2 := { st1 with trust_history := st1.trust_history ++ [new_trust] }
  let escalated := strLt decision.decision.value st2.current_decision.value
  let st3 :=
    if escalated then { st2 with escalation_count := st2.escalation_count + 1 } else st2
  let prev_decision := st3.current_decision
  let st4 := { st3 with current_decision := decision.decision }
  (st4,
    { session_id := ctx.session_id
      previous_decision := prev_decision.value
      current_decision := decision.decision.value
      risk_level := decision.risk_level
      trust_trend := trust_trend st4.trust_history
      escalated := escalated
      verification_count := st4.verification_count })

/-! ## `risk/engine.py` -/

/-- `ThreatIntel` store: three sets, modelled as membership lists. -/
structure ThreatIntel where
  malicious_ips : List String := []
  compromised_credentials : List String := []
  tor_exit_nodes : List String := []

/-- `ThreatIntel.check_ip`. -/
def ThreatIntel.check_ip (t : ThreatIntel) (ip : String) : ℚ :=
  if ip ∈ t.malicious_ips then 1
  else if ip ∈ t.tor_exit_nodes then 7/10
  else 0

/-- `ThreatIntel.check_credential`. -/
def ThreatIntel.check_credential (t : ThreatIntel) (entity_id : String) : ℚ :=
  if entity_id ∈ t.compromised_credentials then 9/10 else 0

/-- `RiskScore` result (composite and level; factors/history append omitted). -/
structure RiskScore where
  entity_id : String
  composite_score : ℚ
  risk_level : String
deriving DecidableEq

/-- The level loop of `RiskEngine.calculate`: first label (checked in order
critical, high, medium, low) whose threshold is `≤ composite`, else "low". -/
def riskLevel (composite : ℚ) : String :=
  if 9/10 ≤ composite then "critical"
  else if 7/10 ≤ composite then "high"
  else if 5/10 ≤ composite then "medium"
  else if 3/10 ≤ composite then "low"
  else "low"

/-- `RiskEngine.calculate` with the default weights
(behavior 0.30, device 0.20, network 0.15, threat 0.20, auth 0.15). -/
def RiskEngine.calculate (threat_intel : ThreatIntel) (entity_id : String)
    (behavior_score : ℚ := 0) (device_health : ℚ := 1) (network_trust : ℚ := 5/10)
    (source_ip : String := "") (auth_strength : ℚ := 5/10) : RiskScore :=
  let comp_behavior := behavior_score
  let comp_device := max 0 (1 - device_health)
  let comp_network := max 0 (1 - network_trust)
  let threat0 : ℚ := 0
  let threat1 :=
    if source_ip ≠ "" then
      let ip_score := threat_intel.check_ip source_ip
      if ip_score > 0 then max threat0 ip_score else threat0
    else threat0
  let cred_score := threat_intel.check_credential entity_id
  let threat_score := if cred_score > 0 then max threat1 cred_score else threat1
  let comp_auth := max 0 (1 - auth_strength)
  let composite := comp_behavior * (30/100) + comp_device * (20/100)
    + comp_network * (15/100) + threat_score * (20/100) + comp_auth * (15/100)
  let composite := round4 (max 0 (min 1 composite))
  { entity_id := entity_id
    composite_score := composite
    risk_level := riskLevel composite }

/-! ## Python dynamic values

`behavioral/baseline.py` and `policy/models.py` receive heterogeneous
"dict" data.  `PyVal` models the scalar Python values the claims exercise
(`None`, `int`, `float`, `bool`, `str`); container values are noted where
they matter.  Statements that can raise are modelled in `Except PyErr`. -/

inductive PyVal where
  | pyNone
  | pyInt (n : ℤ)
  | pyFloat (q : ℚ)
  | pyBool (b : Bool)
  | pyStr (s : String)
deriving DecidableEq

/-- Exceptions a modelled statement can raise. -/
inductive PyErr where
  | typeError
  | indexError
deriving DecidableEq

/-- Numeric view of a value: Python arithmetic and `int`/`float`
comparisons treat `bool` as 0/1; `str` and `None` are non-numeric. -/
def PyVal.toNum : PyVal → Option ℚ
  | .pyInt n => some (n : ℚ)
  | .pyFloat q => some q
  | .pyBool b => some (if b then 1 else 0)
  | .pyNone => none
  | .pyStr _ => none

/-- Python truthiness of `event.get(k)` (`None`/absent, `0`, `0.0`,
`False` and `""` are falsy). -/
def pyTruthy : Option PyVal → Bool
  | none => false
  | some .pyNone => false
  | some (.pyInt n) => n ≠ 0
  | some (.pyFloat q) => q ≠ 0
  | some (.pyBool b) => b
  | some (.pyStr s) => s ≠ ""

/-- Python `==` on the modelled scalars: numerics (including `bool`)
compare by value, strings by content, `None` only to `None`. -/
def pyEq (a b : PyVal) : Bool :=
  match a.toNum, b.toNum with
  | some x, some y => x = y
  | _, _ =>
    match a, b with
    | .pyStr s, .pyStr t => s = t
    | .pyNone, .pyNone => true
    | _, _ => false

/-- Python `int(x)` for numeric `x`: truncation toward zero. -/
def pyIntTrunc (q : ℚ) : ℤ := if 0 ≤ q then ⌊q⌋ else -⌊-q⌋

/-- `counts[key] = counts.get(key, 0) + 1` on a dict modelled as an
association list keyed by Python equality. -/
def bumpCount (k : PyVal) : List (PyVal × ℕ) → List (PyVal × ℕ)
  | [] => [(k, 1)]
  | (k', n) :: t => if pyEq k k' then (k', n + 1) :: t else (k', n) :: bumpCount k t

/-- `d.get(key, 0)` on such a dict. -/
def countOf (k : PyVal) : List (PyVal × ℕ) → ℕ
  | [] => 0
  | (k', n) :: t => if pyEq k k' then n else countOf k t

/-! ## `behavioral/baseline.py` -/

/-- `BaselineProfile`; wall-clock fields omitted.  The hour / day-of-week
distributions are the 24- and 7-bin nonnegative arrays; frequency dicts are
association lists; `feature_stats` maps a feature name to
`(mean, m2, count)`. -/
structure BaselineProfile where
  entity_id : String
  entity_type : PyVal := .pyStr ("user")
  observation_count : ℕ := 0
  hour_distribution : List ℚ := List.replicate 24 0
  dow_distribution : List ℚ := List.replicate 7 0
  resource_frequencies : List (PyVal × ℕ) := []
  action_frequencies : List (PyVal × ℕ) := []
  session_duration_mean : ℚ := 0
  session_duration_m2 : ℚ := 0
  session_count : ℕ := 0
  locations_seen : List (PyVal × ℕ) := []
  source_ips : List (PyVal × ℕ) := []
  feature_stats : List (String × (ℚ × ℚ × ℕ)) := []
deriving DecidableEq

/-- `BaselineProfile.session_duration_variance`: `m2 / (count - 1)` for
`count ≥ 2`, else 0. -/
def BaselineProfile.session_duration_variance (p : BaselineProfile) : ℚ :=
  if p.session_count < 2 then 0
  else p.session_duration_m2 / ((p.session_count : ℚ) - 1)

/-- `BaselineProfile.session_duration_std = sqrt(variance)`. -/
noncomputable def BaselineProfile.session_duration_std (p : BaselineProfile) : ℝ :=
  Real.sqrt ((p.session_duration_variance : ℚ) : ℝ)

/-- `hour_probabilities()`: the distribution normalised to sum 1, or the
uniform 1/24 vector when the total is zero. -/
def BaselineProfile.hour_probabilities (p : BaselineProfile) : List ℚ :=
  let total := p.hour_distribution.sum
  if total = 0 then List.replicate 24 (1/24)
  else p.hour_distribution.map (· / total)

/-- An observed event: each field of the documented event dict, carrying an
arbitrary Python scalar when present.  `features`, when present, is modelled
as a dict of named values (Python would raise on a non-dict `features`;
the claims only exercise dict-or-absent ones). -/
structure Event where
  entity_type : Option PyVal := none
  hour : Option PyVal := none
  day_of_week : Option PyVal := none
  resource : Option PyVal := none
  action : Option PyVal := none
  session_duration : Option PyVal := none
  location : Option PyVal := none
  source_ip : Option PyVal := none
  features : Option (List (String × PyVal)) := none
deriving DecidableEq

/-- Keyed in-place update of an association list (Python dict assignment:
an existing key keeps its position, a new key is appended). -/
def setAssoc {α : Type} : List (String × α) → String → α → List (String × α)
  | [], k, v => [(k, v)]
  | (k', v') :: t, k, v => if k' = k then (k, v) :: t else (k', v') :: setAssoc t k v

/-- The one Welford feature-stats update step of `observe` (raises when the
feature value is non-numeric, as `feat_val - mean` does in Python). -/
def featStep (stats : List (String × (ℚ × ℚ × ℕ))) (kv : String × PyVal) :
    Except PyErr (List (String × (ℚ × ℚ × ℕ))) :=
  match kv.2.toNum with
  | none => .error .typeError
  | some x =>
    let prev := ((stats.lookup kv.1).getD (0, 0, 0))
    let mean := prev.1
    let m2 := prev.2.1
    let count : ℕ := prev.2.2 + 1
    let delta := x - mean
    let mean := mean + delta / (count : ℚ)
    let delta2 := x - mean
    let m2 := m2 + delta * delta2
    .ok (setAssoc stats kv.1 (mean, m2, count))

/-- Lines 114-116 of `behavioral/baseline.py`: the hour guard
`hour is not None and 0 <= hour < 24` raises `TypeError` when `hour` is a
string (Python cannot order `int` and `str`), silently skips out-of-range
values, and increments bin `int(hour)` otherwise. -/
def hourStep (p : BaselineProfile) (o : Option PyVal) : Except PyErr BaselineProfile :=
  match o with
  | none => pure p
  | some .pyNone => pure p
  | some v =>
    match v.toNum with
    | none => throw .typeError
    | some h =>
      if 0 ≤ h ∧ h < 24 then
        let i := (pyIntTrunc h).toNat
        pure { p with hour_distribution :=
          p.hour_distribution.set i (p.hour_distribution.getD i 0 + 1) }
      else pure p

/-- Lines 118-120: like `hourStep` for `day_of_week` with bound 7. -/
def dowStep (p : BaselineProfile) (o : Option PyVal) : Except PyErr BaselineProfile :=
  match o with
  | none => pure p
  | some .pyNone => pure p
  | some v =>
    match v.toNum with
    | none => throw .typeError
    | some d =>
      if 0 ≤ d ∧ d < 7 then
        let i := (pyIntTrunc d).toNat
        pure { p with dow_distribution :=
          p.dow_distribution.set i (p.dow_distribution.getD i 0 + 1) }
      else pure p

/-- Lines 134-140: the Welford `session_duration` update
(`duration - mean` raises on a non-numeric duration). -/
def durStep (p : BaselineProfile) (o : Option PyVal) : Except PyErr BaselineProfile :=
  match o with
  | none => pure p
  | some .pyNone => pure p
  | some v =>
    match v.toNum with
    | none => throw .typeError
    | some x =>
      let count : ℕ := p.session_count + 1
      let delta := x - p.session_duration_mean
      let mean := p.session_duration_mean + delta / (count : ℚ)
      let delta2 := x - mean
      pure { p with session_count := count, session_duration_mean := mean,
                    session_duration_m2 := p.session_duration_m2 + delta * delta2 }

/-- Lines 154-164: per-feature Welford updates over the `features` dict. -/
def featuresStep (p : BaselineProfile) (o : Option (List (String × PyVal))) :
    Except PyErr BaselineProfile :=
  match o with
  | none => pure p
  | some feats => do
    let stats ← feats.foldlM featStep p.feature_stats
    pure { p with feature_stats := stats }

/-- `BehavioralBaseline.observe`, the per-profile part (lines 111-166 of
`behavioral/baseline.py`): bump the observation counter, then apply each
present field's update in program order. -/
def observeProfile (p0 : BaselineProfile) (ev : Event) : Except PyErr BaselineProfile := do
  let p := { p0 with observation_count := p0.observation_count + 1 }
  let p ← hourStep p ev.hour
  let p ← dowStep p ev.day_of_week
  let p := if pyTruthy ev.resource then
      { p with resource_frequencies := bumpCount (ev.resource.getD .pyNone) p.resource_frequencies }
    else p
  let p := if pyTruthy ev.action then
      { p with action_frequencies := bumpCount (ev.action.getD .pyNone) p.action_frequencies }
    else p
  let p ← durStep p ev.session_duration
  let p := if pyTruthy ev.location then
      { p with locations_seen := bumpCount (ev.location.getD .pyNone) p.locations_seen }
    else p
  let p := if pyTruthy ev.source_ip then
      { p with source_ips := bumpCount (ev.source_ip.getD .pyNone) p.source_ips }
    else p
  let p ← featuresStep p ev.features
  pure p

/-- The profile store `BehavioralBaseline.profiles`. -/
def Store := String → Option BaselineProfile

/-- `get_or_create_profile` followed by the `observe` body: the store-level
`BehavioralBaseline.observe`. -/
def observeStore (s : Store) (entity_id : String) (ev : Event) : Except PyErr Store := do
  let entity_type := ev.entity_type.getD (.pyStr ("user"))
  let p0 := (s entity_id).getD { entity_id := entity_id, entity_type := entity_type }
  let p ← observeProfile p0 ev
  pure (fun k => if k = entity_id then some p else s k)

/-- Well-typed event data: every present `hour`, `day_of_week`,
`session_duration` and feature value is numeric or `None`. -/
def Event.wellTyped (ev : Event) : Prop :=
  (∀ v, ev.hour = some v → v = .pyNone ∨ (v.toNum).isSome)
  ∧ (∀ v, ev.day_of_week = some v → v = .pyNone ∨ (v.toNum).isSome)
  ∧ (∀ v, ev.session_duration = some v → v = .pyNone ∨ (v.toNum).isSome)
  ∧ (∀ l, ev.features = some l → ∀ kv ∈ l, (PyVal.toNum kv.2).isSome)

instance (ev : Event) : Decidable ev.wellTyped := by
  unfold Event.wellTyped
  infer_instance

/-- An event whose only present field is a numeric `session_duration`. -/
def durEvent (d : ℚ) : Event := { session_duration := some (.pyFloat d) }

/-- An established profile with 5 sessions, mean 1.5 and `m2 = 1`, so the
sample variance is 1/4 and the standard deviation exactly 1/2. -/
def stdProfile : BaselineProfile :=
  { entity_id := "e", observation_count := 10,
    session_duration_mean := 3/2, session_duration_m2 := 1, session_count := 5 }

/-- The Welford recurrence of `observe` on `(mean, m2, count)`, isolated. -/
def welfordStep (st : ℚ × ℚ × ℕ) (x : ℚ) : ℚ × ℚ × ℕ :=
  let count := st.2.2 + 1
  let delta := x - st.1
  let mean := st.1 + delta / (count : ℚ)
  let delta2 := x - mean
  (mean, st.2.1 + delta * delta2, count)

/-- What `observe` does to a profile on a duration-only event. -/
def durApply (p : BaselineProfile) (x : ℚ) : BaselineProfile :=
  let count : ℕ := p.session_count + 1
  let delta := x - p.session_duration_mean
  let mean := p.session_duration_mean + delta / (count : ℚ)
  let delta2 := x - mean
  { p with observation_count := p.observation_count + 1,
           session_count := count, session_duration_mean := mean,
           session_duration_m2 := p.session_duration_m2 + delta * delta2 }

/-- The Welford triple `(mean, m2, count)` of a profile. -/
def projWelford (p : BaselineProfile) : ℚ × ℚ × ℕ :=
  (p.session_duration_mean, p.session_duration_m2, p.session_count)

/-- The Welford triple of a fresh profile. -/
def welfordInit : ℚ × ℚ × ℕ := (0, 0, 0)

/-- Sum of squares of a list. -/
def sumSq (l : List ℚ) : ℚ := (l.map (fun d => d ^ 2)).sum

/-! ## `behavioral/anomaly.py` -/

/-- The logistic function `1 / (1 + exp(-t))`. -/
noncomputable def logistic (t : ℝ) : ℝ := 1 / (1 + Real.exp (-t))

/-- Python/numpy sequence indexing: negative indices count from the end,
out-of-range indices raise `IndexError`. -/
def pyIndex (l : List ℚ) (i : ℤ) : Except PyErr ℚ :=
  if 0 ≤ i ∧ i < (l.length : ℤ) then .ok (l.getD i.toNat 0)
  else if -(l.length : ℤ) ≤ i ∧ i < 0 then .ok (l.getD (i + (l.length : ℤ)).toNat 0)
  else .error .indexError

/-- `max` of a numeric sequence (only applied to nonempty ones below). -/
def listMax : List ℚ → ℚ
  | [] => 0
  | x :: t => t.foldl max x

/-- `max` of the counts of a dict. -/
def listMaxNat (l : List ℕ) : ℕ := l.foldl max 0

/-- Python `int(x)` as used by `analyze` on the `hour` field (numerics
truncate toward zero, strings parse as integers or raise). -/
def pyToInt : PyVal → Except PyErr ℤ
  | .pyInt n => .ok n
  | .pyFloat q => .ok (pyIntTrunc q)
  | .pyBool b => .ok (if b then 1 else 0)
  | .pyStr s => match s.toInt? with
    | some n => .ok n
    | none => .error .typeError
  | .pyNone => .error .typeError

/-- `AnomalyDetector._time_anomaly` (score only; the diagnostic detail dict
is omitted throughout, it never feeds back into scores or state). -/
def timeAnomaly (p : BaselineProfile) (hour : ℤ) : Except PyErr ℚ := do
  let probs := p.hour_probabilities
  let prob ← pyIndex probs hour
  let max_prob := listMax probs
  if max_prob = 0 then pure 0
  else
    let relative := 1 - prob / max_prob
    let raw ← pyIndex p.hour_distribution hour
    let relative := if raw = 0 then min (relative + 3/10) 1 else relative
    pure (round4 relative)

/-- `AnomalyDetector._resource_anomaly`. -/
def resourceAnomaly (p : BaselineProfile) (resource : PyVal) : ℚ :=
  let count := countOf resource p.resource_frequencies
  let total := (p.resource_frequencies.map (fun kv => kv.2)).sum
  if total = 0 then 1/2
  else if count = 0 then
    let n_unique := p.resource_frequencies.length
    round4 (max (6/10) (1 - (n_unique : ℚ) / 100))
  else
    let freq := (count : ℚ) / (total : ℚ)
    let max_freq := (listMaxNat (p.resource_frequencies.map (fun kv => kv.2)) : ℚ) / (total : ℚ)
    let score := if max_freq > 0 then 1 - freq / max_freq else 0
    round4 (score * (1/2))

/-- `AnomalyDetector._location_anomaly`. -/
def locationAnomaly (p : BaselineProfile) (location : PyVal) : ℚ :=
  let count := countOf location p.locations_seen
  if count = 0 then 9/10
  else
    let total := (p.locations_seen.map (fun kv => kv.2)).sum
    let freq := if 0 < total then (count : ℚ) / (total : ℚ) else 0
    round4 (max 0 (1 - freq * 5))

/-- `AnomalyDetector._ip_anomaly`. -/
def ipAnomaly (p : BaselineProfile) (ip : PyVal) : ℚ :=
  let count := countOf ip p.source_ips
  if count = 0 then 8/10
  else
    let total := (p.source_ips.map (fun kv => kv.2)).sum
    let freq := if 0 < total then (count : ℚ) / (total : ℚ) else 0
    round4 (max 0 (1 - freq * 3))

/-- `AnomalyDetector._duration_anomaly`: below 5 sessions the component is
0.0; otherwise `z = |x - mean| / std` where a std of exactly 0 is replaced
by 1, and the score is `round(logistic(1.5 (z - 2)), 4)`. -/
noncomputable def durationAnomaly (p : BaselineProfile) (x : ℚ) : ℝ :=
  if p.session_count < 5 then 0
  else
    let std0 := p.session_duration_std
    let std := if std0 = 0 then 1 else std0
    let z := |((x : ℚ) : ℝ) - ((p.session_duration_mean : ℚ) : ℝ)| / std
    round4R (logistic ((15/10) * (z - 2)))

/-- The duration component as the spec words it:
`z = |x - mean| / max(std, 1)`, score `logistic(1.5 (z - 2))`.  Stated only
to be compared against `durationAnomaly`, translated from the code. -/
noncomputable def spec_duration_score (p : BaselineProfile) (x : ℚ) : ℝ :=
  logistic ((15/10) *
    (|((x : ℚ) : ℝ) - ((p.session_duration_mean : ℚ) : ℝ)|
      / max p.session_duration_std 1 - 2))

/-- `AnomalyDetector` configuration (weights and threshold). -/
structure AnomalyDetector where
  threshold : ℝ := 7/10
  time_weight : ℚ := 2/10
  resource_weight : ℚ := 25/100
  location_weight : ℚ := 25/100
  ip_weight : ℚ := 15/100
  duration_weight : ℚ := 15/100

/-- `self.weights.get(key, 0.1)`. -/
def AnomalyDetector.weightOf (det : AnomalyDetector) (k : String) : ℚ :=
  if k = "time" then det.time_weight
  else if k = "resource" then det.resource_weight
  else if k = "location" then det.location_weight
  else if k = "ip" then det.ip_weight
  else if k = "duration" then det.duration_weight
  else 1/10

/-- `AnomalyResult` (entity id, composite score, flag; details omitted). -/
structure AnomalyResult where
  entity_id : String
  anomaly_score : ℝ
  is_anomalous : Bool

/-- `AnomalyDetector.analyze` given the profile looked up for the entity:
neutral result on an absent or under-observed profile, otherwise the
weighted average of the component scores of the present fields. -/
noncomputable def analyze (det : AnomalyDetector) (entity_id : String)
    (profile? : Option BaselineProfile) (ev : Event) : Except PyErr AnomalyResult :=
  match profile? with
  | none => .ok { entity_id := entity_id, anomaly_score := 1/2, is_anomalous := false }
  | some p =>
    if p.observation_count < 10 then
      .ok { entity_id := entity_id, anomaly_score := 1/2, is_anomalous := false }
    else do
      let scores : List (String × ℝ) := []
      let scores ← match ev.hour with
        | none => pure scores
        | some .pyNone => pure scores
        | some v => do
          let i ← pyToInt v
          let s ← timeAnomaly p i
          pure (scores ++ [(("time" : String), ((s : ℚ) : ℝ))])
      let scores := if pyTruthy ev.resource then
          scores ++ [(("resource" : String), ((resourceAnomaly p (ev.resource.getD .pyNone) : ℚ) : ℝ))]
        else scores
      let scores := if pyTruthy ev.location then
          scores ++ [(("location" : String), ((locationAnomaly p (ev.location.getD .pyNone) : ℚ) : ℝ))]
        else scores
      let scores := if pyTruthy ev.source_ip then
          scores ++ [(("ip" : String), ((ipAnomaly p (ev.source_ip.getD .pyNone) : ℚ) : ℝ))]
        else scores
      let scores ← match ev.session_duration with
        | none => pure scores
        | some .pyNone => pure scores
        | some v =>
          match v.toNum with
          | none => throw .typeError
          | some x => pure (scores ++ [(("duration" : String), durationAnomaly p x)])
      let composite : ℝ :=
        if scores.isEmpty then 0
        else
          let weighted_sum := (scores.map (fun kv => kv.2 * ((det.weightOf kv.1 : ℚ) : ℝ))).sum
          let weight_sum : ℚ := (scores.map (fun kv => det.weightOf kv.1)).sum
          if 0 < weight_sum then weighted_sum / ((weight_sum : ℚ) : ℝ) else 0
      pure { entity_id := entity_id
             anomaly_score := round4R composite
             is_anomalous := decide (det.threshold ≤ composite) }

/-- `BehavioralBaseline.get_profile`, threading the store it reads: a pure
lookup that, unlike `get_or_create_profile` (used by `observe`), never
inserts. -/
def getProfileStore (s : Store) (entity_id : String) : Option BaselineProfile × Store :=
  (s entity_id, s)

/-- `AnomalyDetector.analyze` at the store level: the only store access is
the `get_profile` read. -/
noncomputable def analyzeStore (det : AnomalyDetector) (s : Store) (entity_id : String)
    (ev : Event) : Except PyErr AnomalyResult × Store :=
  let pr := getProfileStore s entity_id
  (analyze det entity_id pr.1 ev, pr.2)

/-- `AnomalyDetector.analyze_batch` at the store level, threading the store
through each `analyze` call and stopping at the first raised exception. -/
noncomputable def analyzeBatchStore (det : AnomalyDetector) (entity_id : String) :
    Store → List Event → Except PyErr (List AnomalyResult) × Store
  | s, [] => (.ok [], s)
  | s, ev :: t =>
    match analyzeStore det s entity_id ev with
    | (.error e, s1) => (.error e, s1)
    | (.ok r, s1) =>
      let rest := analyzeBatchStore det entity_id s1 t
      (rest.1.map (fun l => r :: l), rest.2)

/-! ## `policy/models.py` -/

/-- Python's three-way comparison on the modelled scalars, `none` standing
for the `TypeError` raised on unordered operands: numerics (including
`bool`) compare by value, two strings lexicographically; `None`, and
mixed string/number pairs, do not order. -/
def pyCmp (a b : PyVal) : Option Ordering :=
  match a.toNum, b.toNum with
  | some x, some y => some (if x < y then .lt else if y < x then .gt else .eq)
  | _, _ =>
    match a, b with
    | .pyStr s, .pyStr t =>
      some (if strLt s t then .lt else if strLt t s then .gt else .eq)
    | _, _ => none

/-- Python `a in v` on the modelled scalars: only a string container is
possible, where it is the substring test; any other right operand (or a
non-string left operand with a string container) raises `TypeError`. -/
def pyIn (a v : PyVal) : Option Bool :=
  match v with
  | .pyStr t =>
    match a with
    | .pyStr s => some (decide (s.data <:+: t.data))
    | _ => none
  | _ => none

/-- `PolicyCondition` (`policy/models.py`). -/
structure PolicyCondition where
  field : String
  operator : String
  value : PyVal
deriving DecidableEq

/-- `PolicyCondition.evaluate`: a missing (or `None`) context field is
false; the operator is applied via Python's own comparison semantics with
`TypeError`/`ValueError` caught and turned into false; an unknown operator
is false. -/
def PolicyCondition.evaluate (c : PolicyCondition)
    (context : String → Option PyVal) : Bool :=
  match context c.field with
  | none => false
  | some .pyNone => false
  | some actual =>
    if c.operator = "eq" then pyEq actual c.value
    else if c.operator = "ne" then !(pyEq actual c.value)
    else if c.operator = "gt" then
      ((pyCmp actual c.value).map (fun o => decide (o = Ordering.gt))).getD false
    else if c.operator = "lt" then
      ((pyCmp actual c.value).map (fun o => decide (o = Ordering.lt))).getD false
    else if c.operator = "gte" then
      ((pyCmp actual c.value).map (fun o => !decide (o = Ordering.lt))).getD false
    else if c.operator = "lte" then
      ((pyCmp actual c.value).map (fun o => !decide (o = Ordering.gt))).getD false
    else if c.operator = "in" then (pyIn actual c.value).getD false
    else if c.operator = "not_in" then
      ((pyIn actual c.value).map (fun b => !b)).getD false
    else false

/-! ## `lateral/graph.py` and `lateral/detector.py` -/

/-- `AccessEdge` (`lateral/graph.py`). -/
structure AccessEdge where
  src : String
  dst : String
  action : String := "access"
  timestamp : ℚ := 0
  credential_type : String := "password"
  success : Bool := true
  risk_score : ℚ := 0
deriving DecidableEq

/-- `AccessGraph` state: the append-only edge log and the per-node feature
vectors (`add_edge` auto-fills missing nodes with zero features; node type
labels are omitted, nothing below reads them). -/
structure AccessGraph where
  edges : List AccessEdge := []
  node_features : List (String × List ℚ) := []

/-- `get_neighbors(v)`: the distinct destinations of edges out of `v`
(the adjacency dict's key set, in insertion order). -/
def AccessGraph.neighbors (g : AccessGraph) (v : String) : List String :=
  ((g.edges.filter (fun e => e.src = v)).map (fun e => e.dst)).dedup

/-- The DFS of `AccessGraph.all_paths`: stop when the path exceeds
`max_depth` nodes (this guard precedes the target test, so no emitted path
is longer), emit the path on reaching the target, otherwise recurse into
each unvisited neighbor. -/
def dfsPaths (nb : String → List String) (maxDepth : ℕ) (target : String) :
    String → List String → List String → List (List String)
  | current, path, visited =>
    if maxDepth < path.length then []
    else if current = target then [path]
    else
      ((nb current).filter (fun n => n ∉ visited)).flatMap
        (fun n => dfsPaths nb maxDepth target n (path ++ [n]) (visited ++ [n]))
  termination_by _ path _ => maxDepth + 1 - path.length
  decreasing_by simp [List.length_append]; omega

/-- `AccessGraph.all_paths`. -/
def AccessGraph.all_paths (g : AccessGraph) (src dst : String) (maxDepth : ℕ := 5) :
    List (List String) :=
  dfsPaths g.neighbors maxDepth dst src [src] [src]

/-- `LateralMovementAlert` (detail dict omitted). -/
structure LateralMovementAlert where
  alert_type : String
  severity : ℝ
  path : List String

/-- Feature-index-0 high-privilege test (`features[0] > 0.7`). -/
def privHigh (nf : String × List ℚ) : Bool :=
  match nf.2.head? with
  | some v => decide ((7 : ℚ)/10 < v)
  | none => false

/-- Feature-index-0 low-privilege test (`features[0] < 0.3`). -/
def privLow (nf : String × List ℚ) : Bool :=
  match nf.2.head? with
  | some v => decide (v < (3 : ℚ)/10)
  | none => false

/-- `LateralMovementDetector._detect_credential_hopping` with the default
`hop_threshold = 3`: group edges by source (first-seen order), sort each
group by timestamp (stably), collect distinct targets in order, and alert
when at least `hop_threshold` of them with
`severity = round(min(1, targets / (2·hop_threshold)), 4)`. -/
def detectCredentialHopping (g : AccessGraph) (hop_threshold : ℕ) :
    List LateralMovementAlert :=
  ((g.edges.map (fun e => e.src)).dedup).flatMap (fun src =>
    let src_edges := g.edges.filter (fun e => e.src = src)
    let sorted_edges := src_edges.mergeSort (fun a b => decide (a.timestamp ≤ b.timestamp))
    let unique_targets := (sorted_edges.map (fun e => e.dst)).dedup
    if hop_threshold ≤ unique_targets.length then
      [{ alert_type := "credential_hopping"
         severity := ((round4 (min 1 ((unique_targets.length : ℚ)
           / ((hop_threshold : ℚ) * 2))) : ℚ) : ℝ)
         path := src :: unique_targets.take (hop_threshold + 2) }]
    else [])

/-- `LateralMovementDetector._detect_privilege_escalation`: for every
(low, high) privilege pair, every path of `all_paths(low, high, max_depth=4)`
with at least 3 nodes yields an alert with
`severity = round(0.6 + 0.1·len(path), 4)` — no explicit cap. -/
def detectPrivilegeEscalation (g : AccessGraph) : List LateralMovementAlert :=
  let high_priv := (g.node_features.filter privHigh).map (fun nf => nf.1)
  let low_priv := (g.node_features.filter (fun nf => !privHigh nf && privLow nf)).map
    (fun nf => nf.1)
  low_priv.flatMap (fun low =>
    high_priv.flatMap (fun high =>
      ((g.all_paths low high 4).filter (fun p => 3 ≤ p.length)).map (fun p =>
        { alert_type := "privilege_escalation"
          severity := ((round4 ((6/10) + (1/10) * (p.length : ℚ)) : ℚ) : ℝ)
          path := p })))

/-- `LateralMovementDetector._detect_embedding_anomalies`, with the GNN
embedding distance `‖current − baseline‖₂` abstracted as `dist` (the GNN
forward pass is seeded floating-point numerics; every property below holds
for every distance function).  Alerts carry
`severity = round(min(1, distance / (3·threshold)), 4)`. -/
noncomputable def detectEmbeddingAnomalies (nodes baseline_nodes : List String)
    (dist : String → ℝ) (anomaly_threshold : ℝ) : List LateralMovementAlert :=
  if baseline_nodes.isEmpty then []
  else nodes.flatMap (fun node =>
    if node ∈ baseline_nodes then
      if anomaly_threshold < dist node then
        [{ alert_type := "embedding_anomaly"
           severity := round4R (min 1 (dist node / (anomaly_threshold * 3)))
           path := [node] }]
      else []
    else [])

/-- `LateralMovementDetector.detect` with the default configuration
(`hop_threshold = 3`, `anomaly_threshold = 2.0`): run the three detectors
and sort the alerts by severity, descending. -/
noncomputable def detect (g : AccessGraph) (nodes baseline_nodes : List String)
    (dist : String → ℝ) : List LateralMovementAlert :=
  (detectCredentialHopping g 3 ++ detectPrivilegeEscalation g
    ++ detectEmbeddingAnomalies nodes baseline_nodes dist 2).mergeSort
    (fun a b => decide (b.severity ≤ a.severity))

/-- A concrete access graph: one source fanning out to three targets
(a credential-hopping pattern), with no feature-bearing nodes. -/
def c9Graph : AccessGraph :=
  { edges := [{ src := "a", dst := "b" }, { src := "a", dst := "c" },
              { src := "a", dst := "d" }] }

/-- The credential-hopping alert `detect` raises on `c9Graph`:
severity `min(1, 3/6) = 0.5`, path `[a, b, c, d]`. -/
noncomputable def c9Alert : LateralMovementAlert :=
  { alert_type := "credential_hopping"
    severity := (((1 : ℚ)/2 : ℚ) : ℝ)
    path := ["a", "b", "c", "d"] }

/-- Concrete re-evaluation context driving the default engine to DENY:
worthless device, maximal behavioral anomaly and risk, weak auth,
external network.  Its trust score is 0.09, below every deny threshold. -/
def denyCtx : AccessContext :=
  { entity_id := "u"
    resource := "r"
    session_id := "s"
    device := { os_patched := false, antivirus_active := false, disk_encrypted := false,
                firewall_enabled := false, compliance_score := 0 }
    behavior_score := 1
    risk_score := 1
    authentication_method := "session_cookie"
    network_zone := "external" }

/-- A verification state whose current decision is ALLOW. -/
def allowState : VerificationState :=
  { entity_id := "u", session_id := "s", trust_history := [1] }

/-! ## Theorems -/

/-- C1: `ContinuousVerifier.reverify` compares decisions with a Python string
comparison on the enum values (`"deny" < "allow"` is false), so a
re-evaluation that moves an ALLOW session to DENY — an escalation under the
spec's mandatory order ALLOW < RESTRICT < CHALLENGE < DENY — is NOT counted:
`escalated` is reported false and `escalation_count` stays 0. -/
theorem c1_reverify_escalation_failing :
    ((AccessDecisionEngine.evaluate {} denyCtx).decision = Decision.deny)
    ∧ allowState.current_decision = Decision.allow
    ∧ strictRank Decision.allow < strictRank Decision.deny
    ∧ (reverify {} allowState denyCtx).2.escalated = false
    ∧ (reverify {} allowState denyCtx).1.escalation_count = 0 := by
  have hEval : AccessDecisionEngine.evaluate {} denyCtx =
      { decision := .deny, confidence := 41/50, risk_level := 91/100 } := by
    norm_num +decide [AccessDecisionEngine.evaluate, AccessDecisionEngine.calculate_trust_score,
      AccessContext.auth_strength, AccessContext.network_trust, DeviceHealth.health_score,
      denyCtx, round4, round_eq, List.countP_cons, List.countP_nil,
      min_def, max_def, abs_of_nonneg]
  have hS : strLt (Decision.value .deny) (Decision.value .allow) = false := by decide
  refine ⟨by rw [hEval], rfl, by decide, ?_, ?_⟩ <;>
    simp [reverify, hEval, allowState, hS]

/-- A bind of `Except` values succeeds when both stages do. -/
theorem exceptBind_ok {α β : Type} {x : Except PyErr α} {f : α → Except PyErr β}
    (hx : ∃ a, x = .ok a) (hf : ∀ a, ∃ b, f a = .ok b) : ∃ b, x >>= f = .ok b := by
  obtain ⟨a, ha⟩ := hx
  subst ha
  simpa using hf a

/-- `hourStep` succeeds on numeric-or-`None` hours. -/
theorem hourStep_ok (p : BaselineProfile) (o : Option PyVal)
    (h : ∀ v, o = some v → v = .pyNone ∨ (v.toNum).isSome) :
    ∃ q, hourStep p o = Except.ok q := by
  cases o with
  | none => exact ⟨_, rfl⟩
  | some v =>
    rcases h v rfl with hv | hv
    · subst hv; exact ⟨_, rfl⟩
    · cases v with
      | pyInt n => simp only [hourStep, PyVal.toNum]; split <;> exact ⟨_, rfl⟩
      | pyFloat q => simp only [hourStep, PyVal.toNum]; split <;> exact ⟨_, rfl⟩
      | pyBool b => simp only [hourStep, PyVal.toNum]; split <;> exact ⟨_, rfl⟩
      | pyNone => exact ⟨_, rfl⟩
      | pyStr s => simp [PyVal.toNum] at hv

/-- `dowStep` succeeds on numeric-or-`None` days. -/
theorem dowStep_ok (p : BaselineProfile) (o : Option PyVal)
    (h : ∀ v, o = some v → v = .pyNone ∨ (v.toNum).isSome) :
    ∃ q, dowStep p o = Except.ok q := by
  cases o with
  | none => exact ⟨_, rfl⟩
  | some v =>
    rcases h v rfl with hv | hv
    · subst hv; exact ⟨_, rfl⟩
    · cases v with
      | pyInt n => simp only [dowStep, PyVal.toNum]; split <;> exact ⟨_, rfl⟩
      | pyFloat q => simp only [dowStep, PyVal.toNum]; split <;> exact ⟨_, rfl⟩
      | pyBool b => simp only [dowStep, PyVal.toNum]; split <;> exact ⟨_, rfl⟩
      | pyNone => exact ⟨_, rfl⟩
      | pyStr s => simp [PyVal.toNum] at hv

/-- `durStep` succeeds on numeric-or-`None` durations. -/
theorem durStep_ok (p : BaselineProfile) (o : Option PyVal)
    (h : ∀ v, o = some v → v = .pyNone ∨ (v.toNum).isSome) :
    ∃ q, durStep p o = Except.ok q := by
  cases o with
  | none => exact ⟨_, rfl⟩
  | some v =>
    rcases h v rfl with hv | hv
    · subst hv; exact ⟨_, rfl⟩
    · cases v with
      | pyInt n => exact ⟨_, rfl⟩
      | pyFloat q => exact ⟨_, rfl⟩
      | pyBool b => exact ⟨_, rfl⟩
      | pyNone => exact ⟨_, rfl⟩
      | pyStr s => simp [PyVal.toNum] at hv

/-- The feature fold succeeds when every feature value is numeric. -/
theorem featuresFold_ok (l : List (String × PyVal))
    (h : ∀ kv ∈ l, (PyVal.toNum kv.2).isSome) :
    ∀ stats, ∃ out, l.foldlM featStep stats = Except.ok out := by
  induction l with
  | nil => exact fun stats => ⟨stats, rfl⟩
  | cons kv t ih =>
    intro stats
    have hkv := h kv (by simp)
    obtain ⟨x, hx⟩ := Option.isSome_iff_exists.mp hkv
    have h1 : ∃ s1, featStep stats kv = Except.ok s1 := by
      simp only [featStep, hx]
      exact ⟨_, rfl⟩
    rw [List.foldlM_cons]
    exact exceptBind_ok h1 (fun s1 => ih (fun kv hm => h kv (by simp [hm])) s1)

/-- `featuresStep` succeeds when the dict's values are all numeric. -/
theorem featuresStep_ok (p : BaselineProfile) (o : Option (List (String × PyVal)))
    (h : ∀ l, o = some l → ∀ kv ∈ l, (PyVal.toNum kv.2).isSome) :
    ∃ q, featuresStep p o = Except.ok q := by
  cases o with
  | none => exact ⟨_, rfl⟩
  | some l =>
    simp only [featuresStep]
    exact exceptBind_ok (featuresFold_ok l (h l rfl) p.feature_stats) (fun s => ⟨_, rfl⟩)

/-- `observe` on a profile succeeds on any well-typed event. -/
theorem observeProfile_ok (p0 : BaselineProfile) (ev : Event) (h : ev.wellTyped) :
    ∃ q, observeProfile p0 ev = Except.ok q := by
  obtain ⟨h1, h2, h3, h4⟩ := h
  simp only [observeProfile]
  refine exceptBind_ok (hourStep_ok _ _ h1) (fun q1 => ?_)
  refine exceptBind_ok (dowStep_ok _ _ h2) (fun q2 => ?_)
  refine exceptBind_ok (durStep_ok _ _ h3) (fun q3 => ?_)
  exact exceptBind_ok (featuresStep_ok _ _ h4) (fun q4 => ⟨_, rfl⟩)

/-- C2 counterexample: `observe` is not total over arbitrary events — a
string-valued `hour` makes the Python guard `0 <= hour < 24` raise
`TypeError` (`int` and `str` do not order), so observing
`{hour: "evening"}` raises rather than silently ignoring the field. -/
theorem c2_observe_string_hour_counterexample :
    observeStore (fun _ => none) ("u") { hour := some (.pyStr ("evening")) }
      = Except.error PyErr.typeError := rfl

/-- C2 amended: `observe` never raises, provided every present `hour`,
`day_of_week`, `session_duration` and feature value is numeric or `None`
(unknown fields and out-of-range well-typed values are silently ignored);
it is not total over arbitrarily malformed values. -/
theorem c2_observe_total_amended (s : Store) (entity_id : String) (ev : Event)
    (h : ev.wellTyped) :
    ∃ s2, observeStore s entity_id ev = Except.ok s2 := by
  simp only [observeStore]
  exact exceptBind_ok (observeProfile_ok _ ev h) (fun q => ⟨_, rfl⟩)

/-- Witness for `c2_observe_total_amended`: an event with an out-of-range
numeric hour and an unknown-typed resource is well-typed and accepted. -/
theorem c2_observe_total_amended_witness :
    Event.wellTyped { hour := some (.pyInt 99), resource := some (.pyStr ("db")) }
    ∧ ∃ s2, observeStore (fun _ => none) ("u")
        { hour := some (.pyInt 99), resource := some (.pyStr ("db")) } = Except.ok s2 :=
  ⟨by decide, c2_observe_total_amended _ ("u") _ (by decide)⟩

/-- C4 counterexample: on trust history `[0.6, 1.0, 0.6]` the code's
`_trust_trend` (last of the last three minus the earliest) says "stable",
while the spec's rule (mean of the last three minus the earliest,
`2/15 > 0.1`) says "improving". -/
theorem c4_trend_counterexample :
    trust_trend [(6/10 : ℚ), 1, 6/10] = "stable"
    ∧ spec_trust_trend [(6/10 : ℚ), 1, 6/10] = "improving" := by
  constructor <;> norm_num [trust_trend, spec_trust_trend, List.getLast?]

/-- C4 amended: with at least 2 history points, the trend compares the LAST
of the final (up to) three history points to the earliest of them:
delta `< -0.1` is "degrading", `> 0.1` is "improving", else "stable". -/
theorem c4_trend_amended (h : List ℚ) (hl : 2 ≤ h.length) :
    trust_trend h =
      (let recent := h.drop (h.length - 3)
       let delta := (recent.getLast?.getD 0) - (recent.head?.getD 0)
       if delta < -(1/10) then "degrading"
       else if delta > 1/10 then "improving"
       else "stable") := by
  have h1 : ¬ (h.length < 2) := by omega
  have h2 : 2 ≤ (h.drop (h.length - 3)).length := by
    rw [List.length_drop]; omega
  simp only [trust_trend, h1, h2, if_false, if_true, ite_true, ite_false]

/-- Witness for `c4_trend_amended` at the concrete history `[1, 0]`. -/
theorem c4_trend_amended_witness :
    2 ≤ ([(1 : ℚ), 0]).length ∧ trust_trend [(1 : ℚ), 0] = "degrading" := by
  refine ⟨by norm_num, ?_⟩
  have h := c4_trend_amended [(1 : ℚ), 0] (by norm_num)
  rw [h]; norm_num [List.getLast?]

/-- C6 counterexample: with default weights and empty threat intelligence,
`calculate(behavior=0.1, device_health=0.95, network_trust=0.8,
auth_strength=0.9)` returns composite `0.085`, not approximately `0.094`
(the distance to 0.094 exceeds 0.004). -/
theorem c6_risk_value_counterexample :
    (RiskEngine.calculate {} ("e") (1/10) (95/100) (8/10) ("") (9/10)).composite_score
        = 17/200
    ∧ ¬ (|(RiskEngine.calculate {} ("e") (1/10) (95/100) (8/10)
          ("") (9/10)).composite_score - 94/1000| ≤ 1/250) := by
  have h : (RiskEngine.calculate {} ("e") (1/10) (95/100) (8/10)
      ("") (9/10)).composite_score = 17/200 := by
    norm_num +decide [RiskEngine.calculate, ThreatIntel.check_ip, ThreatIntel.check_credential,
      riskLevel, round4, round_eq]
  refine ⟨h, ?_⟩
  rw [h]
  rw [show (17:ℚ)/200 - 94/1000 = -(9/1000) by norm_num, abs_neg, abs_of_nonneg (by norm_num)]
  norm_num

/-- C6 amended: the same call returns composite exactly 0.085 and risk
level "low". -/
theorem c6_risk_amended :
    (RiskEngine.calculate {} ("e") (1/10) (95/100) (8/10) ("") (9/10)).composite_score
        = 17/200
    ∧ (RiskEngine.calculate {} ("e") (1/10) (95/100) (8/10) ("") (9/10)).risk_level
        = "low" := by
  constructor <;>
    norm_num +decide [RiskEngine.calculate, ThreatIntel.check_ip, ThreatIntel.check_credential,
      riskLevel, round4, round_eq]

/-- C7: for any fixed context and the default thresholds, evaluating against
a resource at sensitivity 1.0 yields a decision no less strict (under
ALLOW < RESTRICT < CHALLENGE < DENY) than at sensitivity 0.0. -/
theorem c7_sensitivity_monotone (ctx : AccessContext) :
    strictRank ((AccessDecisionEngine.evaluate
        { resource_sensitivity := fun r => if r = ctx.resource then some 0 else none }
        ctx).decision)
      ≤ strictRank ((AccessDecisionEngine.evaluate
        { resource_sensitivity := fun r => if r = ctx.resource then some 1 else none }
        ctx).decision) := by
  unfold AccessDecisionEngine.evaluate
  simp only [if_pos rfl, Option.getD_some]
  set t := AccessDecisionEngine.calculate_trust_score ctx with ht
  norm_num
  split_ifs <;> simp [strictRank] <;> linarith

/-- `observe` on a duration-only event is exactly `durApply`. -/
theorem observe_durEvent (p : BaselineProfile) (d : ℚ) :
    observeProfile p (durEvent d) = Except.ok (durApply p d) := rfl

/-- Folding `observe` over duration-only events is the pure `durApply` fold. -/
theorem durFold_ok (ds : List ℚ) :
    ∀ p, (ds.map durEvent).foldl (fun acc ev => acc >>= fun q => observeProfile q ev)
        (Except.ok p) = Except.ok (ds.foldl durApply p) := by
  induction ds with
  | nil => intro p; rfl
  | cons d t ih =>
    intro p
    simp only [List.map_cons, List.foldl_cons]
    have hbind : (Except.ok p >>= fun q => observeProfile q (durEvent d))
        = Except.ok (durApply p d) := rfl
    rw [hbind, ih]

/-- `durApply` acts on the Welford triple as `welfordStep`. -/
theorem proj_durApply (p : BaselineProfile) (x : ℚ) :
    projWelford (durApply p x) = welfordStep (projWelford p) x := rfl

/-- The fold of `durApply` projects to the fold of `welfordStep`. -/
theorem proj_durFold (ds : List ℚ) :
    ∀ p, projWelford (ds.foldl durApply p) = ds.foldl welfordStep (projWelford p) := by
  induction ds with
  | nil => intro p; rfl
  | cons d t ih =>
    intro p
    simp only [List.foldl_cons]
    rw [ih, proj_durApply]

/-- Closed form of the Welford fold from the zero state: the count is the
length, the mean is the arithmetic mean, and `m2` is the computational form
`Σd² - (Σd)²/n` of the sum of squared deviations. -/
theorem welford_inv (ds : List ℚ) (h : ds ≠ []) :
    (ds.foldl welfordStep welfordInit).2.2 = ds.length
    ∧ (ds.foldl welfordStep welfordInit).1 = ds.sum / (ds.length : ℚ)
    ∧ (ds.foldl welfordStep welfordInit).2.1
        = sumSq ds - ds.sum ^ 2 / (ds.length : ℚ) := by
  induction ds using List.reverseRecOn with
  | nil => cases h rfl
  | append_singleton l x ih =>
    rcases eq_or_ne l [] with hl | hl
    · subst hl
      refine ⟨rfl, ?_, ?_⟩ <;> simp [welfordStep, welfordInit, sumSq]
    · obtain ⟨hc, hm, h2⟩ := ih hl
      have hn : (l.length : ℚ) ≠ 0 := by
        simpa using List.length_eq_zero.not.mpr hl
      rw [List.foldl_append, List.foldl_cons, List.foldl_nil]
      refine ⟨?_, ?_, ?_⟩
      · simp [welfordStep, hc]
      · simp only [welfordStep, hc, hm, List.sum_append, List.length_append,
          List.sum_cons, List.sum_nil, List.length_cons, List.length_nil]
        push_cast
        field_simp
        ring
      · simp only [welfordStep, hc, hm, h2, sumSq, List.map_append, List.sum_append,
          List.length_append, List.sum_cons, List.sum_nil, List.map_cons, List.map_nil,
          List.length_cons, List.length_nil]
        push_cast
        field_simp
        ring

/-- Sum of squared deviations about an arbitrary point, expanded. -/
theorem sq_dev_sum (ds : List ℚ) (m : ℚ) :
    (ds.map (fun d => (d - m) ^ 2)).sum
      = sumSq ds - 2 * m * ds.sum + (ds.length : ℚ) * m ^ 2 := by
  induction ds with
  | nil => simp [sumSq]
  | cons d t ih =>
    simp only [List.map_cons, List.sum_cons, ih, sumSq, List.length_cons]
    push_cast
    ring

/-- C8: folding `observe` over duration-only events `[d1, …, dn]` from a
fresh profile succeeds, and the resulting Welford state is exact: the mean
is the arithmetic mean, `m2` is the sum of squared deviations, and for
`n ≥ 2` the reported variance `m2/(n-1)` is the sample variance — all over
exact rational arithmetic. -/
theorem c8_welford (ds : List ℚ) (h : ds ≠ []) :
    ∃ p, (ds.map durEvent).foldl (fun acc ev => acc >>= fun q => observeProfile q ev)
          (Except.ok ({ entity_id := "u" } : BaselineProfile)) = Except.ok p
      ∧ p.session_count = ds.length
      ∧ p.session_duration_mean = ds.sum / (ds.length : ℚ)
      ∧ p.session_duration_m2
          = (ds.map (fun d => (d - ds.sum / (ds.length : ℚ)) ^ 2)).sum
      ∧ (2 ≤ ds.length →
          p.session_duration_variance
            = (ds.map (fun d => (d - ds.sum / (ds.length : ℚ)) ^ 2)).sum
                / ((ds.length : ℚ) - 1)) := by
  have hn : (ds.length : ℚ) ≠ 0 := by
    simpa using List.length_eq_zero.not.mpr h
  have hproj := proj_durFold ds ({ entity_id := "u" } : BaselineProfile)
  obtain ⟨hc, hm, h2⟩ := welford_inv ds h
  have hsq : (ds.map (fun d => (d - ds.sum / (ds.length : ℚ)) ^ 2)).sum
      = sumSq ds - ds.sum ^ 2 / (ds.length : ℚ) := by
    rw [sq_dev_sum]
    field_simp
    ring
  set p := ds.foldl durApply ({ entity_id := "u" } : BaselineProfile) with hp
  have hcount : p.session_count = ds.length := by
    have := congrArg (fun t => t.2.2) hproj
    simpa [projWelford] using this.trans hc
  have hmean : p.session_duration_mean = ds.sum / (ds.length : ℚ) := by
    have := congrArg (fun t => t.1) hproj
    simpa [projWelford] using this.trans hm
  have hm2 : p.session_duration_m2
      = (ds.map (fun d => (d - ds.sum / (ds.length : ℚ)) ^ 2)).sum := by
    have := congrArg (fun t => t.2.1) hproj
    rw [hsq]
    simpa [projWelford] using this.trans h2
  refine ⟨p, durFold_ok ds _, hcount, hmean, hm2, fun h2le => ?_⟩
  rw [BaselineProfile.session_duration_variance, if_neg (by omega), hcount, hm2]

/-- Witness for `c8_welford` at the durations `[1, 2, 3]`. -/
theorem c8_welford_witness :
    ([(1 : ℚ), 2, 3] ≠ [])
    ∧ ∃ p, (([(1 : ℚ), 2, 3]).map durEvent).foldl
          (fun acc ev => acc >>= fun q => observeProfile q ev)
          (Except.ok ({ entity_id := "u" } : BaselineProfile)) = Except.ok p
      ∧ p.session_count = ([(1 : ℚ), 2, 3]).length
      ∧ p.session_duration_mean = ([(1 : ℚ), 2, 3]).sum / (([(1 : ℚ), 2, 3]).length : ℚ)
      ∧ p.session_duration_m2
          = (([(1 : ℚ), 2, 3]).map
              (fun d => (d - ([(1 : ℚ), 2, 3]).sum / (([(1 : ℚ), 2, 3]).length : ℚ)) ^ 2)).sum
      ∧ (2 ≤ ([(1 : ℚ), 2, 3]).length →
          p.session_duration_variance
            = (([(1 : ℚ), 2, 3]).map
                (fun d => (d - ([(1 : ℚ), 2, 3]).sum / (([(1 : ℚ), 2, 3]).length : ℚ)) ^ 2)).sum
                / ((([(1 : ℚ), 2, 3]).length : ℚ) - 1)) :=
  ⟨by simp, c8_welford [(1 : ℚ), 2, 3] (by simp)⟩

/-- `analyze_batch` threads the store through unchanged. -/
theorem analyzeBatch_frame (det : AnomalyDetector) (entity_id : String) (evs : List Event) :
    ∀ s, (analyzeBatchStore det entity_id s evs).2 = s := by
  induction evs with
  | nil => intro s; rfl
  | cons ev t ih =>
    intro s
    simp only [analyzeBatchStore, analyzeStore, getProfileStore]
    rcases h : analyze det entity_id (s entity_id) ev with e | r
    · simp [h]
    · simp [h, ih s]

/-- C10: `analyze` (and `analyze_batch`) leaves the baseline profile store
unchanged: its only store access is the inserting-free `get_profile` read,
so no profile is created or mutated. -/
theorem c10_analyze_frame (det : AnomalyDetector) (s : Store) (entity_id : String) :
    (∀ ev, (analyzeStore det s entity_id ev).2 = s)
    ∧ (∀ evs, (analyzeBatchStore det entity_id s evs).2 = s) :=
  ⟨fun _ => rfl, fun evs => analyzeBatch_frame det entity_id evs s⟩

/-- `round(·, 4)` on the reals fixes 0. -/
theorem round4R_zero : round4R 0 = 0 := by
  unfold round4R
  norm_num

/-- `round(·, 4)` on the cast of a rational is the cast of `round4`. -/
theorem round4R_ratCast (q : ℚ) : round4R ((q : ℚ) : ℝ) = ((round4 q : ℚ) : ℝ) := by
  unfold round4R round4
  rw [show ((q : ℝ) * 10000) = (((q * 10000 : ℚ)) : ℝ) by push_cast; ring, Rat.round_cast]
  push_cast
  ring

/-- `round(·, 4)` on the reals is idempotent. -/
theorem round4R_idem (x : ℝ) : round4R (round4R x) = round4R x := by
  unfold round4R
  rw [div_mul_cancel₀ _ (by norm_num : (10000 : ℝ) ≠ 0), round_intCast]

/-- The logistic function at 0 is 1/2. -/
theorem logistic_zero : logistic 0 = 1/2 := by
  unfold logistic
  rw [neg_zero, Real.exp_zero]
  norm_num

/-- The standard deviation of `stdProfile` is exactly 1/2. -/
theorem stdProfile_std : stdProfile.session_duration_std = 1/2 := by
  have hvar : stdProfile.session_duration_variance = 1/4 := by
    norm_num [BaselineProfile.session_duration_variance, stdProfile]
  rw [BaselineProfile.session_duration_std, hvar]
  rw [show (((1 : ℚ)/4 : ℚ) : ℝ) = (1/2 : ℝ)^2 by norm_num]
  exact Real.sqrt_sq (by norm_num)

/-- C3 counterexample: on a profile with σ = 1/2 (so `0 < σ < 1`) and an
event one mean-deviation away, the code divides by σ itself (z = 2, score
exactly 0.5), while the claimed formula with divisor `max(σ, 1)` gives
z = 1 and a score below 1/4 — the code's divisor IS smaller than 1. -/
theorem c3_duration_divisor_counterexample :
    durationAnomaly stdProfile (5/2) = 1/2
    ∧ spec_duration_score stdProfile (5/2) < 1/4 := by
  constructor
  · have h5 : ¬ (stdProfile.session_count < 5) := by norm_num [stdProfile]
    simp only [durationAnomaly, h5, if_false, ite_false, stdProfile_std]
    rw [if_neg (by norm_num : ¬ ((1:ℝ)/2 = 0))]
    have harg : ((15:ℝ)/10) *
        (|(((5:ℚ)/2 : ℚ) : ℝ) - ((stdProfile.session_duration_mean : ℚ) : ℝ)| / (1/2) - 2)
        = 0 := by
      norm_num [stdProfile]
    rw [harg, logistic_zero]
    unfold round4R
    rw [show ((1:ℝ)/2 * 10000) = ((5000 : ℤ) : ℝ) by norm_num, round_intCast]
    norm_num
  · unfold spec_duration_score
    rw [stdProfile_std]
    have hmax : max ((1:ℝ)/2) 1 = 1 := by norm_num
    rw [hmax]
    have harg : ((15:ℝ)/10) *
        (|(((5:ℚ)/2 : ℚ) : ℝ) - ((stdProfile.session_duration_mean : ℚ) : ℝ)| / 1 - 2)
        = -(3/2) := by
      norm_num [stdProfile]
    rw [harg]
    unfold logistic
    rw [neg_neg]
    have hexp : (3:ℝ) < Real.exp (3/2) := by
      have h1 : (7/4 : ℝ) ≤ Real.exp (3/4) := by
        have := Real.add_one_le_exp (3/4 : ℝ)
        linarith
      have h2 : Real.exp (3/2) = Real.exp (3/4) * Real.exp (3/4) := by
        rw [← Real.exp_add]
        norm_num
      nlinarith [Real.exp_pos (3/4 : ℝ)]
    rw [div_lt_div_iff₀ (by positivity) (by norm_num : (0:ℝ) < 4)]
    linarith

/-- C3 amended: for an established profile, the duration component equals
`round4(logistic(1.5 (z - 2)))` with `z = |x - μ| / σ'` where `σ'` is the
sample standard deviation EXCEPT that only a σ of exactly 0 is replaced by
1 (a σ strictly between 0 and 1 is used as-is); and when `session_count < 5`
the component is not skipped but contributes a 0.0 score at full weight,
diluting the other components (a lone novel-location event scores 0.9, but
with an insufficient-data duration present the composite drops to 0.5625). -/
theorem c3_duration_component_amended (p : BaselineProfile)
    (h10 : 10 ≤ p.observation_count) (x : ℚ) (L : String) (hLne : L ≠ "")
    (hL : countOf (.pyStr L) p.locations_seen = 0) :
    (∃ r, analyze {} ("e") (some p) (durEvent x) = Except.ok r
       ∧ r.anomaly_score =
          (if p.session_count < 5 then 0
           else round4R (logistic ((15/10) *
             (|((x : ℚ) : ℝ) - ((p.session_duration_mean : ℚ) : ℝ)|
               / (if p.session_duration_std = 0 then 1 else p.session_duration_std)
               - 2)))))
    ∧ (p.session_count < 5 →
       ∃ r, analyze {} ("e") (some p)
           { location := some (.pyStr L), session_duration := some (.pyFloat x) }
           = Except.ok r
         ∧ r.anomaly_score = ((9/16 : ℚ) : ℝ)) := by
  have h10' : ¬ (p.observation_count < 10) := by omega
  constructor
  · simp only [analyze, durEvent, h10', if_false, ite_false, pure_bind, PyVal.toNum,
      pyTruthy, Bool.false_eq_true, List.nil_append]
    refine ⟨_, rfl, ?_⟩
    show round4R _ = _
    simp only [List.isEmpty_cons, Bool.false_eq_true, if_false, List.map_cons,
      List.map_nil, List.sum_cons, List.sum_nil, add_zero]
    rw [if_pos (by norm_num +decide [AnomalyDetector.weightOf])]
    have hw : (((AnomalyDetector.weightOf {} ("duration")) : ℚ) : ℝ) ≠ 0 := by
      norm_num +decide [AnomalyDetector.weightOf]
    rw [mul_div_assoc, div_self hw, mul_one]
    rcases Nat.lt_or_ge p.session_count 5 with hc | hc
    · rw [if_pos hc]
      have hd : durationAnomaly p x = 0 := by simp [durationAnomaly, hc]
      rw [hd, round4R_zero]
    · rw [if_neg (by omega)]
      have hd : durationAnomaly p x
          = round4R (logistic ((15/10) *
              (|((x : ℚ) : ℝ) - ((p.session_duration_mean : ℚ) : ℝ)|
                / (if p.session_duration_std = 0 then 1 else p.session_duration_std)
                - 2))) := by
        rw [durationAnomaly, if_neg (by omega)]
      rw [hd, round4R_idem]
  · intro hc
    simp only [analyze, h10', if_false, ite_false, pure_bind, PyVal.toNum,
      pyTruthy, hLne, Bool.false_eq_true, List.nil_append, Option.getD_some,
      List.cons_append, List.singleton_append, ne_eq, decide_not]
    refine ⟨_, rfl, ?_⟩
    show round4R _ = _
    simp only [decide_False, Bool.not_false, if_true, ite_true, List.singleton_append,
      List.isEmpty_cons, Bool.false_eq_true, if_false, List.map_cons,
      List.map_nil, List.sum_cons, List.sum_nil, add_zero]
    rw [if_pos (by norm_num +decide [AnomalyDetector.weightOf])]
    have hloc : locationAnomaly p (.pyStr L) = 9/10 := by
      simp [locationAnomaly, hL]
    have hd : durationAnomaly p x = 0 := by simp [durationAnomaly, hc]
    rw [hloc, hd]
    norm_num +decide [AnomalyDetector.weightOf]
    unfold round4R
    rw [show ((9:ℝ)/16 * 10000) = ((5625 : ℤ) : ℝ) by norm_num, round_intCast]
    norm_num

/-- Witness for `c3_duration_component_amended` at a fresh-statistics
profile (10 observations, no sessions, no locations), `x = 1`, `L` = a
novel location. -/
theorem c3_duration_component_amended_witness :
    (10 ≤ ({ entity_id := "e", observation_count := 10 } : BaselineProfile).observation_count)
    ∧ (("moon" : String) ≠ "")
    ∧ (countOf (.pyStr ("moon"))
        ({ entity_id := "e", observation_count := 10 } : BaselineProfile).locations_seen = 0)
    ∧ (({ entity_id := "e", observation_count := 10 } : BaselineProfile).session_count < 5)
    ∧ (∃ r, analyze {} ("e")
          (some ({ entity_id := "e", observation_count := 10 } : BaselineProfile))
          (durEvent 1) = Except.ok r
        ∧ r.anomaly_score =
          (if ({ entity_id := "e", observation_count := 10 } : BaselineProfile).session_count < 5
           then 0
           else round4R (logistic ((15/10) *
             (|((1 : ℚ) : ℝ)
                - ((({ entity_id := "e", observation_count := 10 } : BaselineProfile).session_duration_mean : ℚ) : ℝ)|
               / (if ({ entity_id := "e", observation_count := 10 } : BaselineProfile).session_duration_std = 0
                  then 1
                  else ({ entity_id := "e", observation_count := 10 } : BaselineProfile).session_duration_std)
               - 2)))))
    ∧ (∃ r, analyze {} ("e")
          (some ({ entity_id := "e", observation_count := 10 } : BaselineProfile))
          { location := some (.pyStr ("moon")), session_duration := some (.pyFloat 1) }
          = Except.ok r
        ∧ r.anomaly_score = ((9/16 : ℚ) : ℝ)) :=
  ⟨by norm_num, by decide, by norm_num [countOf], by norm_num,
    (c3_duration_component_amended _ (by norm_num) 1 ("moon") (by decide)
      (by norm_num [countOf])).1,
    (c3_duration_component_amended _ (by norm_num) 1 ("moon") (by decide)
      (by norm_num [countOf])).2 (by norm_num)⟩

/-- Python string `<` is asymmetric. -/
theorem charListLt_asymm : ∀ as bs : List Char,
    charListLt as bs = true → charListLt bs as = false := by
  intro as
  induction as with
  | nil => intro bs h; cases bs <;> simp_all [charListLt]
  | cons a as ih =>
    intro bs h
    cases bs with
    | nil => simp [charListLt] at h
    | cons b bs =>
      simp only [charListLt] at h ⊢
      by_cases hab : a < b
      · have hba : ¬ b < a := lt_asymm hab
        simp [hab, hba]
      · by_cases hba : b < a
        · simp [hab, hba] at h
        · simp only [hab, hba, if_false, ite_false] at h ⊢
          simp [ih bs h]

/-- C5 counterexample: an ordering operator on two strings performs
Python's lexicographic comparison — `gt` on context value `"b"` against
condition value `"a"` evaluates TRUE, not the claimed type-mismatch false. -/
theorem c5_ordering_lexical_counterexample :
    PolicyCondition.evaluate
      { field := "x", operator := "gt", value := .pyStr ("a") }
      (fun k => if k = "x" then some (.pyStr ("b")) else none) = true := by
  decide

/-- C5 amended: a field missing from the context (or bound to `None`)
makes the condition false; ordering operators apply Python's native
comparison, so two strings compare lexicographically (`gt` is `value <
actual` in string order), while a string against a numeric value raises
`TypeError`, which is caught and yields false. -/
theorem c5_condition_eval_amended (f op : String) (v : PyVal)
    (context : String → Option PyVal) :
    (context f = none → PolicyCondition.evaluate { field := f, operator := op, value := v }
        context = false)
    ∧ (∀ s t, context f = some (.pyStr s) → v = .pyStr t →
        PolicyCondition.evaluate { field := f, operator := ("gt" : String), value := v }
          context = strLt t s)
    ∧ (∀ s, context f = some (.pyStr s) → (v.toNum).isSome →
        (op = "gt" ∨ op = "lt" ∨ op = "gte" ∨ op = "lte") →
        PolicyCondition.evaluate { field := f, operator := op, value := v }
          context = false) := by
  refine ⟨?_, ?_, ?_⟩
  · intro h
    simp [PolicyCondition.evaluate, h]
  · intro s t hf hv
    subst hv
    simp only [PolicyCondition.evaluate, hf]
    simp only [pyCmp, PyVal.toNum]
    cases hst : strLt s t with
    | true =>
      have hts : strLt t s = false := by
        have := charListLt_asymm s.data t.data hst
        simpa [strLt] using this
      simp [hst, hts]
    | false =>
      cases hts : strLt t s <;> simp [hst, hts]
  · intro s hf hnum hop
    obtain ⟨x, hx⟩ := Option.isSome_iff_exists.mp hnum
    have hcmp : pyCmp (.pyStr s) v = none := by
      cases v <;> simp_all [pyCmp, PyVal.toNum]
    rcases hop with h | h | h | h <;> subst h <;>
      simp [PolicyCondition.evaluate, hf, hcmp]

/-- Witness for `c5_condition_eval_amended` at a concrete context
`{x: "b", y: 3}` and condition value `"a"`. -/
theorem c5_condition_eval_amended_witness :
    ((fun k => if k = "x" then some (PyVal.pyStr ("b"))
      else if k = "y" then some (PyVal.pyInt 3) else none) ("z")
        = (none : Option PyVal))
    ∧ (PolicyCondition.evaluate { field := "z", operator := "gt", value := .pyStr ("a") }
        (fun k => if k = "x" then some (PyVal.pyStr ("b"))
          else if k = "y" then some (PyVal.pyInt 3) else none) = false)
    ∧ (PolicyCondition.evaluate
        { field := "x", operator := ("gt" : String), value := .pyStr ("a") }
        (fun k => if k = "x" then some (PyVal.pyStr ("b"))
          else if k = "y" then some (PyVal.pyInt 3) else none)
        = strLt ("a") ("b"))
    ∧ (PolicyCondition.evaluate
        { field := "x", operator := ("lte" : String), value := .pyInt 3 }
        (fun k => if k = "x" then some (PyVal.pyStr ("b"))
          else if k = "y" then some (PyVal.pyInt 3) else none) = false) := by
  refine ⟨by decide, ?_, ?_, ?_⟩
  · exact (c5_condition_eval_amended ("z") ("gt") (.pyStr ("a")) _).1 (by decide)
  · exact (c5_condition_eval_amended ("x") ("gt") (.pyStr ("a")) _).2.1 ("b") ("a")
      (by decide) rfl
  · exact (c5_condition_eval_amended ("x") ("lte") (.pyInt 3) _).2.2 ("b")
      (by decide) (by decide) (Or.inr (Or.inr (Or.inr rfl)))

/-- `round(·, 4)` does not push a rational above 1. -/
theorem round4_le_one {x : ℚ} (h : x ≤ 1) : round4 x ≤ 1 := by
  have h1 : round (x * 10000) ≤ round ((10000 : ℚ)) := by
    rw [round_eq, round_eq]
    exact Int.floor_le_floor (by linarith)
  have h2 : round ((10000 : ℚ)) = 10000 := by
    norm_num [round_eq]
  unfold round4
  rw [div_le_one (by norm_num : (0:ℚ) < 10000)]
  exact_mod_cast h1.trans (le_of_eq h2)

/-- `round(·, 4)` does not push a real above 1. -/
theorem round4R_le_one {x : ℝ} (h : x ≤ 1) : round4R x ≤ 1 := by
  have h1 : round (x * 10000) ≤ round ((10000 : ℝ)) := by
    rw [round_eq, round_eq]
    exact Int.floor_le_floor (by linarith)
  have h2 : round ((10000 : ℝ)) = 10000 := by
    norm_num [round_eq]
  unfold round4R
  rw [div_le_one (by norm_num : (0:ℝ) < 10000)]
  exact_mod_cast h1.trans (le_of_eq h2)

/-- The severity cap `round4(min(1, ·))` stays at most 1 (rational, cast). -/
theorem round4_min_one_cast_le_one (q : ℚ) : ((round4 (1 ⊓ q) : ℚ) : ℝ) ≤ 1 := by
  have h := round4_le_one (min_le_left 1 q)
  exact_mod_cast h

/-- The severity cap `round4(min(1, ·))` stays at most 1 (real). -/
theorem round4R_min_one_le_one (x : ℝ) : round4R (1 ⊓ x) ≤ 1 :=
  round4R_le_one (min_le_left 1 x)

/-- Every path the DFS emits has at most `maxDepth` nodes: the length guard
precedes the target test. -/
theorem dfsPaths_length_le (nb : String → List String) (maxDepth : ℕ) (target : String) :
    ∀ n current path visited, maxDepth + 1 - path.length ≤ n →
      ∀ p ∈ dfsPaths nb maxDepth target current path visited, p.length ≤ maxDepth := by
  intro n
  induction n with
  | zero =>
    intro current path visited hn p hp
    rw [dfsPaths] at hp
    rw [if_pos (by omega)] at hp
    exact absurd hp (List.not_mem_nil p)
  | succ n ih =>
    intro current path visited hn p hp
    rw [dfsPaths] at hp
    by_cases h1 : maxDepth < path.length
    · rw [if_pos h1] at hp
      exact absurd hp (List.not_mem_nil p)
    · rw [if_neg h1] at hp
      by_cases h2 : current = target
      · rw [if_pos h2] at hp
        have hpp : p = path := by simpa using hp
        subst hpp
        omega
      · rw [if_neg h2] at hp
        rw [List.mem_flatMap] at hp
        obtain ⟨nxt, _, hp2⟩ := hp
        exact ih nxt (path ++ [nxt]) (visited ++ [nxt])
          (by simp only [List.length_append, List.length_cons, List.length_nil]; omega) p hp2

/-- Every path of `all_paths(src, dst, maxDepth)` has at most `maxDepth`
nodes. -/
theorem all_paths_length_le (g : AccessGraph) (src dst : String) (md : ℕ)
    (p : List String) (hp : p ∈ g.all_paths src dst md) : p.length ≤ md := by
  exact dfsPaths_length_le g.neighbors md dst md src [src] [src] (by simp) p hp

/-- C9: every alert returned by `detect` has severity at most 1.0: the
credential-hopping and embedding severities are capped by `min(1, ·)`, and
the uncapped privilege-escalation severity `0.6 + 0.1·len(path)` is bounded
because `all_paths` with `max_depth = 4` emits paths of at most 4 nodes. -/
theorem c9_detect_severity_le_one (g : AccessGraph) (nodes baseline_nodes : List String)
    (dist : String → ℝ) (a : LateralMovementAlert)
    (ha : a ∈ detect g nodes baseline_nodes dist) : a.severity ≤ 1 := by
  rw [detect, List.mem_mergeSort, List.mem_append, List.mem_append] at ha
  rcases ha with (h | h) | h
  · simp only [detectCredentialHopping, List.mem_flatMap] at h
    obtain ⟨src, _, h⟩ := h
    split at h
    · have ha2 := List.mem_singleton.mp h
      subst ha2
      exact round4_min_one_cast_le_one _
    · exact absurd h (List.not_mem_nil a)
  · simp only [detectPrivilegeEscalation, List.mem_flatMap, List.mem_map,
      List.mem_filter] at h
    obtain ⟨low, _, high, _, p, ⟨hp, hlen⟩, rfl⟩ := h
    show ((round4 _ : ℚ) : ℝ) ≤ 1
    have hple : p.length ≤ 4 := all_paths_length_le g low high 4 p hp
    have harg : (6/10 : ℚ) + (1/10) * (p.length : ℚ) ≤ 1 := by
      have hc : (p.length : ℚ) ≤ 4 := by exact_mod_cast hple
      linarith
    exact_mod_cast round4_le_one harg
  · rw [detectEmbeddingAnomalies] at h
    split at h
    · exact absurd h (List.not_mem_nil a)
    · rw [List.mem_flatMap] at h
      obtain ⟨node, _, h⟩ := h
      split at h
      · split at h
        · have ha2 := List.mem_singleton.mp h
          subst ha2
          exact round4R_min_one_le_one _
        · exact absurd h (List.not_mem_nil a)
      · exact absurd h (List.not_mem_nil a)

/-- Witness for `c9_detect_severity_le_one`: on `c9Graph` (source `a`,
targets `b`, `c`, `d`), `detect` raises exactly the credential-hopping
alert with severity 0.5 ≤ 1. -/
theorem c9_detect_severity_le_one_witness :
    c9Alert ∈ detect c9Graph [] [] (fun _ => 0) ∧ c9Alert.severity ≤ 1 := by
  have hcred : detectCredentialHopping c9Graph 3 = [c9Alert] := by
    have hsrc : ((c9Graph.edges.map (fun e => e.src)).dedup) = ["a"] := rfl
    simp only [detectCredentialHopping, hsrc, List.flatMap_cons, List.flatMap_nil,
      List.append_nil]
    have hflt : List.filter (fun e => decide (e.src = "a")) c9Graph.edges
        = c9Graph.edges := rfl
    have hms : (c9Graph.edges).mergeSort (fun a b => decide (a.timestamp ≤ b.timestamp))
        = c9Graph.edges := by
      apply List.mergeSort_of_sorted
      norm_num [c9Graph, List.pairwise_cons]
    have htgt : (List.map (fun e => e.dst) c9Graph.edges).dedup = ["b", "c", "d"] := rfl
    rw [hflt, hms, htgt, if_pos (by norm_num)]
    simp only [c9Alert, List.length_cons, List.length_nil, List.take]
    norm_num [round4, round_eq, min_def]
  have hpriv : detectPrivilegeEscalation c9Graph = [] := rfl
  have hemb : detectEmbeddingAnomalies [] [] (fun _ => 0) 2 = [] := rfl
  have hmem : c9Alert ∈ detect c9Graph [] [] (fun _ => 0) := by
    rw [detect, hcred, hpriv, hemb]
    simp
  exact ⟨hmem, c9_detect_severity_le_one _ _ _ _ _ hmem⟩

end ZT
